import Mathlib

/-!
# Verification of the Financial Snapshot Builder (`src/Database/api.py`)

Shallow embedding of `fetch_financials` and `save_to_mongodb`.

The external market-data provider (`yfinance`) is modelled as an environment
(`Provider`): each provider call either raises (`Except.error ()`) or returns
its data.  Numeric values delivered by the provider are modelled as exact
rationals (`ℚ`); Python's `None` is `Option.none`; the Python dict being
assembled is an association list (`Dict`) written to with Python dict-assignment
semantics (`dictSet`).

Floating-point special values matter in one place: the price-history block
produces `NaN` (not `None`, and without raising) when the series is too short
for a sample standard deviation or when a zero close makes `pct_change`
produce `inf`/`NaN`.  The field-value type `Val` therefore has an explicit
`nan` constructor, and `Val.vol v` stands for the finite float
`sqrt v * sqrt 252` (the annualised standard deviation whose sample variance
is `v`); rounding of finite float arithmetic is not modelled.
-/

/-- A scalar value stored in the snapshot dict: a string, a finite number
(exact rational stand-in for a Python float), the annualised volatility
`sqrt v * sqrt 252` carried by its sample variance `v`, or the float `NaN`. -/
inductive Val : Type
  | s (str : String)
  | q (x : ℚ)
  | vol (v : ℚ)
  | nan
deriving DecidableEq, Repr

/-- The real number a numeric `Val` denotes (strings and `NaN` map to 0;
`NaN`-ness is tracked by the constructor, not by this interpreter). -/
noncomputable def Val.toReal : Val → ℝ
  | .s _ => 0
  | .q x => (x : ℝ)
  | .vol v => Real.sqrt v * Real.sqrt 252
  | .nan => 0

/-- `true` exactly on the finite-number constructors (`q`, `vol`). -/
def Val.isFiniteNum : Val → Bool
  | .q _ => true
  | .vol _ => true
  | _ => false

/-- A Python dict with string keys: an association list in insertion order.
A value of `none` is Python's `None`; `some v` is the scalar `v`. -/
abbrev Dict := List (String × Option Val)

/-- Python `d[k] = v`: overwrite in place if `k` is present (keys are unique,
so the first occurrence is the occurrence), else append at the end. -/
def dictSet : Dict → String → Option Val → Dict
  | [], k, v => [(k, v)]
  | (k', w) :: d, k, v =>
    if k' = k then (k, v) :: d else (k', w) :: dictSet d k v

/-- Python `d[k]`: `none` if the key is absent, `some w` if present with
value `w` (so `some none` means "present and equal to `None`"). -/
def dictGet (d : Dict) (k : String) : Option (Option Val) :=
  (d.find? (fun p => p.1 = k)).map (fun p => p.2)

/-- `t.fast_info` as seen through the five `fast.get(...)` calls the code
makes; each key may be absent (`none`). -/
structure FastInfo where
  lastPrice : Option ℚ
  marketCap : Option ℚ
  yearHigh : Option ℚ
  yearLow : Option ℚ
  lastVolume : Option ℚ

/-- `t.get_info()` as seen through the seven `info.get(...)` calls. -/
structure Info where
  sector : Option String
  industry : Option String
  trailingEps : Option ℚ
  trailingPE : Option ℚ
  returnOnEquity : Option ℚ
  debtToEquity : Option ℚ
  profitMargins : Option ℚ

/-- A pandas DataFrame keyed by row label, as the code uses it: row labels
with the row's period values, `iloc[0]` being the most recent period. -/
structure Table where
  rows : List (String × List ℚ)

/-- Python `name in table.index`. -/
def Table.hasRow (t : Table) (k : String) : Bool :=
  t.rows.any (fun r => r.1 = k)

/-- Python `table.loc[k].iloc[0]` (first matching row, most recent period);
`none` when the row is absent or has no period columns.  In the source every
such access sits inside a `try` whose handler produces the same `None`
outcome that an absent value does here, so folding the `IndexError` of an
empty row into `none` is observationally equivalent. -/
def Table.loc0 (t : Table) (k : String) : Option ℚ :=
  (t.rows.find? (fun r => r.1 = k)).bind (fun r => r.2.head?)

/-- A trailing-1-year daily bar series: one `(Close, Volume)` pair per row. -/
abbrev Hist := List (ℚ × ℚ)

/-- The behaviour of `yf.Ticker(symbol)` for one fixed symbol: each endpoint
either raises or returns data.  The spec treats all five as potentially
failing; `Except.error ()` is any raised exception. -/
structure Provider where
  fast_info : Except Unit FastInfo
  get_info : Except Unit Info
  get_financials : Except Unit Table
  get_balance_sheet : Except Unit Table
  get_quarterly_balance_sheet : Except Unit Table
  history : Except Unit Hist

/-- Lift an optional rational to an optional dict value. -/
def oq (x : Option ℚ) : Option Val := x.map Val.q

/-- Lift an optional string to an optional dict value. -/
def os (x : Option String) : Option Val := x.map Val.s

/-- `for key in keys: if key in bs.index: take bs.loc[key].iloc[0]; break` —
ordered alias lookup, first present row wins. -/
def firstKeyMatch (bs : Table) : List String → Option ℚ
  | [] => none
  | k :: ks => if bs.hasRow k then bs.loc0 k else firstKeyMatch bs ks

/-- The asset-row aliases of `extract_current_ratio`, in source order. -/
def asset_keys : List String :=
  ["Total Current Assets", "Current Assets", "CurrentAssets"]

/-- The liability-row aliases of `extract_current_ratio`, in source order. -/
def liability_keys : List String :=
  ["Total Current Liabilities", "Current Liabilities", "CurrentLiabilities"]

/-- `extract_current_ratio(bs)` (api.py lines 76-96): resolve the asset and
liability rows by ordered alias lookup; if both are truthy (present and
nonzero — Python `if curr_assets and curr_liabilities and
curr_liabilities != 0`) return assets / liabilities, else `None`. -/
def extract_current_ratio (bs : Table) : Option ℚ :=
  let curr_assets := firstKeyMatch bs asset_keys
  let curr_liabilities := firstKeyMatch bs liability_keys
  match curr_assets, curr_liabilities with
  | some a, some l => if a ≠ 0 ∧ l ≠ 0 then some (a / l) else none
  | _, _ => none

/-- The revenue-row aliases of the total-revenue block, in source order. -/
def possible_revenue_rows : List String := ["Total Revenue", "TotalRevenue"]

/-- Arithmetic mean of a list of rationals (`Series.mean` on finite data). -/
def listMean (xs : List ℚ) : ℚ := xs.sum / xs.length

/-- Sample variance with `ddof=1` (the square of `Series.std`), meaningful
for lists of length ≥ 2. -/
def sampleVar (xs : List ℚ) : ℚ :=
  (xs.map (fun x => (x - listMean xs) ^ 2)).sum / (xs.length - 1 : ℕ)

/-- One day-over-day percentage change `(cur - prev) / prev` as computed by
`pct_change`, classified as IEEE-754 does: previous close 0 gives `0/0 = NaN`
when the current close is also 0, and `±inf` otherwise. -/
inductive Ret : Type
  | val (x : ℚ)
  | nan
  | inf
deriving DecidableEq

/-- Classify one `pct_change` step. -/
def retOf (prev cur : ℚ) : Ret :=
  if prev = 0 then (if cur = 0 then .nan else .inf) else .val ((cur - prev) / prev)

/-- The `pct_change` series of a close-price list, without its leading `NaN`
(which `Series.std` skips anyway): one classified return per adjacent pair. -/
def rets (closes : List ℚ) : List Ret :=
  (closes.zip closes.tail).map (fun p => retOf p.1 p.2)

/-- The finite (non-`NaN`, non-`inf`) returns, the values `Series.std`
actually aggregates after skipping `NaN`. -/
def validRets (closes : List ℚ) : List ℚ :=
  (rets closes).filterMap (fun r => match r with | .val x => some x | _ => none)

/-- Whether any `pct_change` step overflowed to `±inf`; an infinity in the
data drives `Series.std` to `NaN` (infinities are not skipped). -/
def hasInfRet (closes : List ℚ) : Bool :=
  (rets closes).any (fun r => r = .inf)

/-- `float(hist["returns"].std() * np.sqrt(252))`: `NaN` unless the data is
infinity-free and at least 2 returns survive `skipna` (`ddof=1` needs ≥ 2
points); otherwise the volatility value, carried by its sample variance. -/
def volatilityVal (closes : List ℚ) : Val :=
  if hasInfRet closes = false ∧ 2 ≤ (validRets closes).length then
    Val.vol (sampleVar (validRets closes))
  else
    Val.nan

/-- `float((hist["Close"] * hist["Volume"]).mean())`: the mean of close×volume,
`NaN` on an empty series. -/
def liquidityVal (h : Hist) : Val :=
  if h.isEmpty then Val.nan else Val.q (listMean (h.map (fun r => r.1 * r.2)))

/-- `fetch_financials(ticker_symbol)` (api.py lines 21-122).  `now` is the
`datetime.utcnow().isoformat()` string.  Raises (`Except.error`) exactly when
an uncaught exception escapes; the quick-quote block (lines 30-35) is the one
provider access outside any `try`. -/
def fetch_financials (t : Provider) (now : String) (ticker_symbol : String) :
    Except Unit Dict :=
  match t.fast_info with
  | .error e => .error e
  | .ok fast =>
    let data : Dict := dictSet (dictSet []
      "ticker" (some (.s ticker_symbol.toUpper)))
      "timestamp" (some (.s now))
    -- -------- BASIC PRICE DATA --------
    let data := dictSet data "last_price" (oq fast.lastPrice)
    let data := dictSet data "market_cap" (oq fast.marketCap)
    let data := dictSet data "year_high" (oq fast.yearHigh)
    let data := dictSet data "year_low" (oq fast.yearLow)
    let data := dictSet data "volume" (oq fast.lastVolume)
    -- -------- SECTOR, INDUSTRY, EPS, PE, ROE, DEBT/EQUITY, PROFIT MARGIN ----
    let data :=
      match t.get_info with
      | .ok info =>
        let data := dictSet data "sector" (os info.sector)
        let data := dictSet data "industry" (os info.industry)
        let data := dictSet data "eps" (oq info.trailingEps)
        let data := dictSet data "pe_ratio" (oq info.trailingPE)
        let data := dictSet data "roe" (oq info.returnOnEquity)
        let data := dictSet data "debt_to_equity" (oq info.debtToEquity)
        dictSet data "profit_margin" (oq info.profitMargins)
      | .error _ =>
        let data := dictSet data "sector" none
        let data := dictSet data "industry" none
        let data := dictSet data "eps" none
        let data := dictSet data "pe_ratio" none
        let data := dictSet data "roe" none
        let data := dictSet data "debt_to_equity" none
        dictSet data "profit_margin" none
    -- -------- TOTAL REVENUE --------
    let data :=
      match t.get_financials with
      | .ok fin =>
        let revenue_value := firstKeyMatch fin possible_revenue_rows
        dictSet data "total_revenue"
          (match revenue_value with
           | some v => if v ≠ 0 then some (.q v) else none
           | none => none)
      | .error _ => dictSet data "total_revenue" none
    -- -------- CURRENT RATIO --------
    let data :=
      match t.get_balance_sheet with
      | .ok bs_annual =>
        dictSet data "current_ratio" (oq (extract_current_ratio bs_annual))
      | .error _ => dictSet data "current_ratio" none
    let data :=
      if dictGet data "current_ratio" = some none then
        match t.get_quarterly_balance_sheet with
        | .ok bs_quarter =>
          dictSet data "current_ratio" (oq (extract_current_ratio bs_quarter))
        | .error _ => dictSet data "current_ratio" none
      else data
    -- -------- VOLATILITY / LIQUIDITY --------
    let data :=
      match t.history with
      | .ok hist =>
        let data := dictSet data "volatility"
          (some (volatilityVal (hist.map (fun r => r.1))))
        dictSet data "liquidity" (some (liquidityVal hist))
      | .error _ =>
        let data := dictSet data "volatility" none
        dictSet data "liquidity" none
    .ok data

/-- `save_to_mongodb(data)` (api.py lines 125-127): one `insert_one` on the
module-level collection.  The document store is an external collaborator;
per its contract (spec §6) `insert_one` appends a new document to the
collection unconditionally — no uniqueness constraint, no upsert. -/
def save_to_mongodb (data : Dict) (collection : List Dict) : List Dict :=
  collection ++ [data]

/-- The documented key set of the snapshot, in assembly order. -/
def snapshotKeys : List String :=
  ["ticker", "timestamp", "last_price", "market_cap", "year_high", "year_low",
   "volume", "sector", "industry", "eps", "pe_ratio", "roe", "debt_to_equity",
   "profit_margin", "total_revenue", "current_ratio", "volatility", "liquidity"]

/-- The `Info` the descriptive/fundamental block effectively reads: the
fetched one on success, all-`None` after the `except` handler. -/
def infoView (r : Except Unit Info) : Info :=
  match r with
  | .ok info => info
  | .error _ => ⟨none, none, none, none, none, none, none⟩

/-- The value of `data["total_revenue"]` as a function of the
`get_financials` outcome. -/
def revenueVal (r : Except Unit Table) : Option Val :=
  match r with
  | .ok fin =>
    match firstKeyMatch fin possible_revenue_rows with
    | some v => if v ≠ 0 then some (.q v) else none
    | none => none
  | .error _ => none

/-- The value of `data["current_ratio"]` as a function of the annual and
quarterly balance-sheet outcomes: the annual extraction, retried against the
quarterly sheet whenever it came out `None`. -/
def ratioVal (a q : Except Unit Table) : Option Val :=
  let annual : Option ℚ :=
    match a with
    | .ok bs => extract_current_ratio bs
    | .error _ => none
  match annual with
  | some r => some (.q r)
  | none =>
    match q with
    | .ok bs => oq (extract_current_ratio bs)
    | .error _ => none

/-- The value of `data["volatility"]` as a function of the history outcome. -/
def volVal (h : Except Unit Hist) : Option Val :=
  match h with
  | .ok hist => some (volatilityVal (hist.map (fun r => r.1)))
  | .error _ => none

/-- The value of `data["liquidity"]` as a function of the history outcome. -/
def liqVal (h : Except Unit Hist) : Option Val :=
  match h with
  | .ok hist => some (liquidityVal hist)
  | .error _ => none

/-- `dictSet` on the empty dict appends. -/
@[simp] theorem dictSet_nil (k : String) (v : Option Val) :
    dictSet [] k v = [(k, v)] := rfl

/-- `dictSet` overwrites a matching head entry in place. -/
@[simp] theorem dictSet_cons_eq (k : String) (w v : Option Val) (d : Dict) :
    dictSet ((k, w) :: d) k v = (k, v) :: d := by
  simp [dictSet]

/-- `dictSet` passes over a non-matching head entry. -/
@[simp] theorem dictSet_cons_ne (k' k : String) (w v : Option Val) (d : Dict)
    (h : ¬ k' = k) : dictSet ((k', w) :: d) k v = (k', w) :: dictSet d k v := by
  simp [dictSet, h]

/-- `dictGet` on the empty dict misses. -/
@[simp] theorem dictGet_nil (k : String) : dictGet [] k = none := rfl

/-- `dictGet` finds a matching head entry. -/
@[simp] theorem dictGet_cons_eq (k : String) (w : Option Val) (d : Dict) :
    dictGet ((k, w) :: d) k = some w := by
  simp [dictGet]

/-- `dictGet` passes over a non-matching head entry. -/
@[simp] theorem dictGet_cons_ne (k' k : String) (w : Option Val) (d : Dict)
    (h : ¬ k' = k) : dictGet ((k', w) :: d) k = dictGet d k := by
  simp [dictGet, List.find?, h]

/-- Normal form of a successful `fetch_financials` run: whenever the
quick-quote lookup succeeds, the call returns (does not raise) and the
returned dict is exactly these 18 pairs in assembly order, each facet's
values given by its outcome. -/
theorem fetch_financials_ok (t : Provider) (now ticker_symbol : String)
    (fi : FastInfo) (h : t.fast_info = .ok fi) :
    fetch_financials t now ticker_symbol = .ok
      [("ticker", some (.s ticker_symbol.toUpper)),
       ("timestamp", some (.s now)),
       ("last_price", oq fi.lastPrice),
       ("market_cap", oq fi.marketCap),
       ("year_high", oq fi.yearHigh),
       ("year_low", oq fi.yearLow),
       ("volume", oq fi.lastVolume),
       ("sector", os (infoView t.get_info).sector),
       ("industry", os (infoView t.get_info).industry),
       ("eps", oq (infoView t.get_info).trailingEps),
       ("pe_ratio", oq (infoView t.get_info).trailingPE),
       ("roe", oq (infoView t.get_info).returnOnEquity),
       ("debt_to_equity", oq (infoView t.get_info).debtToEquity),
       ("profit_margin", oq (infoView t.get_info).profitMargins),
       ("total_revenue", revenueVal t.get_financials),
       ("current_ratio", ratioVal t.get_balance_sheet t.get_quarterly_balance_sheet),
       ("volatility", volVal t.history),
       ("liquidity", liqVal t.history)] := by
  unfold fetch_financials
  rw [h]
  cases hi : t.get_info <;>
    cases hf : t.get_financials <;>
      cases hh : t.history <;>
        cases hb : t.get_balance_sheet
  all_goals
    first
      | (rename_i bs
         cases he : extract_current_ratio bs <;>
           first
             | (simp [infoView, revenueVal, ratioVal, volVal, liqVal, oq, os,
                  he]
                done)
             | (cases hq : t.get_quarterly_balance_sheet <;>
                 simp [infoView, revenueVal, ratioVal, volVal, liqVal, oq, os,
                   he, hq]))
      | (cases hq : t.get_quarterly_balance_sheet <;>
          simp [infoView, revenueVal, ratioVal, volVal, liqVal, oq, os, hq])

/-- If `fetch_financials` returns at all, the quick-quote lookup succeeded
(it is the one provider access outside any `try`). -/
theorem fetch_ok_fastInfo (t : Provider) (now s : String) (rec : Dict)
    (h : fetch_financials t now s = .ok rec) :
    ∃ fi, t.fast_info = .ok fi := by
  cases hf : t.fast_info with
  | ok fi => exact ⟨fi, rfl⟩
  | error e =>
    unfold fetch_financials at h
    rw [hf] at h
    exact absurd h (by simp)

/-- A concrete quick-quote result for witnesses. -/
def fiA : FastInfo := ⟨some 5, some 10, some 20, some 1, some 1000⟩

/-- A concrete company-info result for witnesses. -/
def infoA : Info :=
  ⟨some "Technology", some "Semiconductors", some 2, some 15, some (1/10),
   some (1/2), some (1/5)⟩

/-- An income statement with a "Total Revenue" row, most recent value 1000. -/
def tableRev : Table := ⟨[("Total Revenue", [1000, 900])]⟩

/-- An annual balance sheet with current assets 200, current liabilities 100. -/
def tableBS : Table := ⟨[("Current Assets", [200]), ("Current Liabilities", [100])]⟩

/-- A quarterly balance sheet with current assets 50, current liabilities 25. -/
def tableQBS : Table := ⟨[("Current Assets", [50]), ("Current Liabilities", [25])]⟩

/-- A 4-day price/volume history with positive closes. -/
def histA : Hist := [(100, 10), (110, 12), (105, 11), (120, 9)]

/-- A provider on which every endpoint succeeds. -/
def provA : Provider :=
  ⟨.ok fiA, .ok infoA, .ok tableRev, .ok tableBS, .ok tableQBS, .ok histA⟩

/-- A provider on which only the quick-quote endpoint succeeds. -/
def provErr : Provider :=
  ⟨.ok fiA, .error (), .error (), .error (), .error (), .error ()⟩

/-- The record `fetch_financials` builds against `provErr`. -/
def recErr : Dict :=
  [("ticker", some (.s ("aapl".toUpper))),
   ("timestamp", some (.s "2024-01-01T00:00:00")),
   ("last_price", some (.q 5)), ("market_cap", some (.q 10)),
   ("year_high", some (.q 20)), ("year_low", some (.q 1)),
   ("volume", some (.q 1000)), ("sector", none), ("industry", none),
   ("eps", none), ("pe_ratio", none), ("roe", none), ("debt_to_equity", none),
   ("profit_margin", none), ("total_revenue", none), ("current_ratio", none),
   ("volatility", none), ("liquidity", none)]

/-- C2: whenever `fetch_financials` returns, the record's keys are exactly the
18 documented field names, in assembly order, and each guarded facet that
raised has `None` substituted for every one of its fields. -/
theorem C2_record_keys (t : Provider) (now s : String) (rec : Dict)
    (h : fetch_financials t now s = .ok rec) :
    rec.map Prod.fst = snapshotKeys
    ∧ (t.get_info = .error () →
        dictGet rec "sector" = some none ∧ dictGet rec "industry" = some none
        ∧ dictGet rec "eps" = some none ∧ dictGet rec "pe_ratio" = some none
        ∧ dictGet rec "roe" = some none
        ∧ dictGet rec "debt_to_equity" = some none
        ∧ dictGet rec "profit_margin" = some none)
    ∧ (t.get_financials = .error () → dictGet rec "total_revenue" = some none)
    ∧ (t.get_balance_sheet = .error () →
        t.get_quarterly_balance_sheet = .error () →
        dictGet rec "current_ratio" = some none)
    ∧ (t.history = .error () →
        dictGet rec "volatility" = some none
        ∧ dictGet rec "liquidity" = some none) := by
  obtain ⟨fi, hfi⟩ := fetch_ok_fastInfo t now s rec h
  rw [fetch_financials_ok t now s fi hfi] at h
  injection h with h
  subst h
  refine ⟨by simp [snapshotKeys], ?_, ?_, ?_, ?_⟩
  · intro hi
    rw [hi]
    simp [infoView, os, oq]
  · intro hf
    rw [hf]
    simp [revenueVal]
  · intro hb hq
    rw [hb, hq]
    simp [ratioVal]
  · intro hh
    rw [hh]
    simp [volVal, liqVal]

/-- C2 witness: the all-facets-failed provider still yields exactly the
documented key set, with `None` in every guarded facet's field. -/
theorem C2_record_keys_witness :
    fetch_financials provErr "2024-01-01T00:00:00" "aapl" = .ok recErr
    ∧ recErr.map Prod.fst = snapshotKeys
    ∧ dictGet recErr "sector" = some none
    ∧ dictGet recErr "volatility" = some none :=
  have hfetch : fetch_financials provErr "2024-01-01T00:00:00" "aapl" = .ok recErr := by
    rw [fetch_financials_ok provErr "2024-01-01T00:00:00" "aapl" fiA rfl]
    rfl
  have hc := C2_record_keys provErr "2024-01-01T00:00:00" "aapl" recErr hfetch
  ⟨hfetch, hc.1, (hc.2.1 rfl).1, ((hc.2.2.2.2) rfl).1⟩

/-- C3: if the descriptive/fundamental lookup (`t.get_info()`) raises, all
seven of its fields are `None` simultaneously in the returned record. -/
theorem C3_info_raise_nulls_all_seven (t : Provider) (now s : String)
    (rec : Dict) (e : Unit) (h : fetch_financials t now s = .ok rec)
    (hi : t.get_info = .error e) :
    dictGet rec "sector" = some none ∧ dictGet rec "industry" = some none
    ∧ dictGet rec "eps" = some none ∧ dictGet rec "pe_ratio" = some none
    ∧ dictGet rec "roe" = some none ∧ dictGet rec "debt_to_equity" = some none
    ∧ dictGet rec "profit_margin" = some none := by
  obtain ⟨fi, hfi⟩ := fetch_ok_fastInfo t now s rec h
  rw [fetch_financials_ok t now s fi hfi] at h
  injection h with h
  subst h
  rw [hi]
  simp [infoView, os, oq]

/-- C3 witness: on the provider whose `get_info` raises, all seven
descriptive/fundamental fields come out `None`. -/
theorem C3_info_raise_nulls_all_seven_witness :
    fetch_financials provErr "2024-01-01T00:00:00" "aapl" = .ok recErr
    ∧ provErr.get_info = .error ()
    ∧ (dictGet recErr "sector" = some none
       ∧ dictGet recErr "industry" = some none
       ∧ dictGet recErr "eps" = some none
       ∧ dictGet recErr "pe_ratio" = some none
       ∧ dictGet recErr "roe" = some none
       ∧ dictGet recErr "debt_to_equity" = some none
       ∧ dictGet recErr "profit_margin" = some none) :=
  have hfetch : fetch_financials provErr "2024-01-01T00:00:00" "aapl"
      = .ok recErr := by
    rw [fetch_financials_ok provErr "2024-01-01T00:00:00" "aapl" fiA rfl]
    rfl
  ⟨hfetch, rfl,
   C3_info_raise_nulls_all_seven provErr "2024-01-01T00:00:00" "aapl" recErr ()
     hfetch rfl⟩

/-- C9: the Persistence Sink is a pure insert: saving the same record twice
appends it twice — the collection grows by one document per call, the second
call adds a second copy rather than updating the first. -/
theorem C9_pure_insert_no_upsert (d : Dict) (c : List Dict) :
    save_to_mongodb d (save_to_mongodb d c) = c ++ [d, d]
    ∧ (save_to_mongodb d c).length = c.length + 1
    ∧ (save_to_mongodb d (save_to_mongodb d c)).length = c.length + 2
    ∧ (save_to_mongodb d (save_to_mongodb d c)).count d = c.count d + 2 := by
  refine ⟨by simp [save_to_mongodb], by simp [save_to_mongodb], ?_, ?_⟩
  · simp [save_to_mongodb]
  · simp [save_to_mongodb, List.count_append]

/-- `extract_current_ratio` can only produce a nonzero ratio: a `some r`
result arises from truthy (nonzero) assets and liabilities. -/
theorem extract_current_ratio_ne_zero (bs : Table) (r : ℚ)
    (h : extract_current_ratio bs = some r) : r ≠ 0 := by
  unfold extract_current_ratio at h
  rcases ha : firstKeyMatch bs asset_keys with _ | a <;>
    rcases hl : firstKeyMatch bs liability_keys with _ | l <;>
      rw [ha, hl] at h <;> simp at h
  rcases h with ⟨⟨hane, hlne⟩, hr⟩
  rw [← hr]
  exact div_ne_zero hane hlne

/-- C10: in any returned record, a non-`None` `total_revenue` is a nonzero
number, and a non-`None` `current_ratio` is a nonzero number — the truthiness
checks collapse an exact 0 to `None` in both fields. -/
theorem C10_truthiness_no_zero (t : Provider) (now s : String) (rec : Dict)
    (h : fetch_financials t now s = .ok rec) :
    (∀ v : Val, dictGet rec "total_revenue" = some (some v) →
      ∃ x : ℚ, v = .q x ∧ x ≠ 0)
    ∧ (∀ v : Val, dictGet rec "current_ratio" = some (some v) →
      ∃ x : ℚ, v = .q x ∧ x ≠ 0) := by
  obtain ⟨fi, hfi⟩ := fetch_ok_fastInfo t now s rec h
  rw [fetch_financials_ok t now s fi hfi] at h
  injection h with h
  subst h
  constructor
  · intro v hv
    simp at hv
    rcases hf : t.get_financials with e | fin <;> simp [revenueVal, hf] at hv
    rcases hm : firstKeyMatch fin possible_revenue_rows with _ | w <;>
      simp [hm] at hv
    by_cases hw : w = 0
    · simp [hw] at hv
    · simp [hw] at hv
      exact ⟨w, hv.symm, hw⟩
  · intro v hv
    simp at hv
    rcases hb : t.get_balance_sheet with e | bs <;>
      simp [ratioVal, hb] at hv
    · rcases hq : t.get_quarterly_balance_sheet with e2 | qb <;>
        simp [hq, oq] at hv
      rcases he : extract_current_ratio qb with _ | r <;> simp [he] at hv
      exact ⟨r, hv.symm, extract_current_ratio_ne_zero qb r he⟩
    · rcases he : extract_current_ratio bs with _ | r <;> simp [he] at hv
      · rcases hq : t.get_quarterly_balance_sheet with e2 | qb <;>
          simp [hq, oq] at hv
        rcases he2 : extract_current_ratio qb with _ | r2 <;> simp [he2] at hv
        exact ⟨r2, hv.symm, extract_current_ratio_ne_zero qb r2 he2⟩
      · exact ⟨r, hv.symm, extract_current_ratio_ne_zero bs r he⟩

/-- The record `fetch_financials` builds against `provA` (every facet
succeeds; ratio 200/100 = 2, revenue 1000, 4 positive closes). -/
def recA : Dict :=
  [("ticker", some (.s ("aapl".toUpper))),
   ("timestamp", some (.s "2024-01-01T00:00:00")),
   ("last_price", some (.q 5)), ("market_cap", some (.q 10)),
   ("year_high", some (.q 20)), ("year_low", some (.q 1)),
   ("volume", some (.q 1000)), ("sector", some (.s "Technology")),
   ("industry", some (.s "Semiconductors")), ("eps", some (.q 2)),
   ("pe_ratio", some (.q 15)), ("roe", some (.q (1/10))),
   ("debt_to_equity", some (.q (1/2))), ("profit_margin", some (.q (1/5))),
   ("total_revenue", some (.q 1000)),
   ("current_ratio", some (.q (200/100))),
   ("volatility", some (volatilityVal (histA.map (fun r => r.1)))),
   ("liquidity", some (.q (listMean (histA.map (fun r => r.1 * r.2)))))]

/-- C10 witness: against `provA`, `total_revenue` is 1000 ≠ 0 and
`current_ratio` is 200/100 ≠ 0, as the theorem demands of any non-`None`
value. -/
theorem C10_truthiness_no_zero_witness :
    fetch_financials provA "2024-01-01T00:00:00" "aapl" = .ok recA
    ∧ dictGet recA "total_revenue" = some (some (.q 1000))
    ∧ (1000 : ℚ) ≠ 0
    ∧ dictGet recA "current_ratio" = some (some (.q (200/100)))
    ∧ (200/100 : ℚ) ≠ 0 :=
  have hfetch : fetch_financials provA "2024-01-01T00:00:00" "aapl"
      = .ok recA := by
    rw [fetch_financials_ok provA "2024-01-01T00:00:00" "aapl" fiA rfl]
    rfl
  have hc := C10_truthiness_no_zero provA "2024-01-01T00:00:00" "aapl" recA
    hfetch
  ⟨hfetch, by decide,
   by
     obtain ⟨x, hx, hxne⟩ := hc.1 (.q 1000) (by decide)
     cases Val.q.inj hx
     exact hxne,
   rfl,
   by
     obtain ⟨x, hx, hxne⟩ := hc.2 (.q (200/100)) rfl
     cases Val.q.inj hx
     exact hxne⟩

/-- C5: the `total_revenue` field.  On a fetched income statement: a
"Total Revenue" row is consulted first (its most recent period value is
taken, nonzero values pass through, e.g. 1000 resolves to 1000); when
neither alias row exists, or the table is empty, or the matched value is
zero, the field is `None`; and when the fetch raises, the field is `None`. -/
theorem C5_total_revenue (t : Provider) (now s : String) (rec : Dict)
    (h : fetch_financials t now s = .ok rec) :
    (∀ fin : Table, t.get_financials = .ok fin →
      (∀ v : ℚ, fin.hasRow "Total Revenue" = true →
        fin.loc0 "Total Revenue" = some v → v ≠ 0 →
        dictGet rec "total_revenue" = some (some (.q v)))
      ∧ (fin.hasRow "Total Revenue" = true →
          fin.loc0 "Total Revenue" = some 1000 →
          dictGet rec "total_revenue" = some (some (.q 1000)))
      ∧ (fin.hasRow "Total Revenue" = false →
          fin.hasRow "TotalRevenue" = false →
          dictGet rec "total_revenue" = some none)
      ∧ (fin.rows = [] → dictGet rec "total_revenue" = some none)
      ∧ (firstKeyMatch fin possible_revenue_rows = some 0 →
          dictGet rec "total_revenue" = some none)
      ∧ (∀ v : ℚ, fin.hasRow "Total Revenue" = false →
          fin.hasRow "TotalRevenue" = true →
          fin.loc0 "TotalRevenue" = some v → v ≠ 0 →
          dictGet rec "total_revenue" = some (some (.q v))))
    ∧ (t.get_financials = .error () → dictGet rec "total_revenue" = some none) := by
  obtain ⟨fi, hfi⟩ := fetch_ok_fastInfo t now s rec h
  rw [fetch_financials_ok t now s fi hfi] at h
  injection h with h
  subst h
  constructor
  · intro fin hfin
    have hval : ∀ v : ℚ, fin.hasRow "Total Revenue" = true →
        fin.loc0 "Total Revenue" = some v → v ≠ 0 →
        dictGet
          [("ticker", some (.s s.toUpper)), ("timestamp", some (.s now)),
           ("last_price", oq fi.lastPrice), ("market_cap", oq fi.marketCap),
           ("year_high", oq fi.yearHigh), ("year_low", oq fi.yearLow),
           ("volume", oq fi.lastVolume),
           ("sector", os (infoView t.get_info).sector),
           ("industry", os (infoView t.get_info).industry),
           ("eps", oq (infoView t.get_info).trailingEps),
           ("pe_ratio", oq (infoView t.get_info).trailingPE),
           ("roe", oq (infoView t.get_info).returnOnEquity),
           ("debt_to_equity", oq (infoView t.get_info).debtToEquity),
           ("profit_margin", oq (infoView t.get_info).profitMargins),
           ("total_revenue", revenueVal t.get_financials),
           ("current_ratio",
             ratioVal t.get_balance_sheet t.get_quarterly_balance_sheet),
           ("volatility", volVal t.history), ("liquidity", liqVal t.history)]
          "total_revenue" = some (some (.q v)) := by
      intro v hrow hv hvne
      simp [revenueVal, hfin, firstKeyMatch, possible_revenue_rows, hrow, hv,
        hvne]
    refine ⟨hval, fun hrow hv => hval 1000 hrow hv (by norm_num), ?_, ?_, ?_,
      ?_⟩
    · intro h1 h2
      simp [revenueVal, hfin, firstKeyMatch, possible_revenue_rows, h1, h2]
    · intro hrows
      simp [revenueVal, hfin, firstKeyMatch, possible_revenue_rows,
        Table.hasRow, hrows]
    · intro hm
      simp [revenueVal, hfin, hm]
    · intro v h1 h2 hv hvne
      simp [revenueVal, hfin, firstKeyMatch, possible_revenue_rows, h1, h2,
        hv, hvne]
  · intro hf
    simp [revenueVal, hf]

/-- C5 witness: `tableRev` has a "Total Revenue" row with most recent value
1000, and against `provA` the field resolves to 1000. -/
theorem C5_total_revenue_witness :
    fetch_financials provA "2024-01-01T00:00:00" "aapl" = .ok recA
    ∧ tableRev.hasRow "Total Revenue" = true
    ∧ tableRev.loc0 "Total Revenue" = some 1000
    ∧ dictGet recA "total_revenue" = some (some (.q 1000)) :=
  have hfetch : fetch_financials provA "2024-01-01T00:00:00" "aapl"
      = .ok recA := by
    rw [fetch_financials_ok provA "2024-01-01T00:00:00" "aapl" fiA rfl]
    rfl
  ⟨hfetch, by decide, by decide,
   ((C5_total_revenue provA "2024-01-01T00:00:00" "aapl" recA hfetch).1
       tableRev rfl).2.1 (by decide) (by decide)⟩

/-- Alias resolution to assets 200 / liabilities 100 makes
`extract_current_ratio` return 2. -/
theorem extract_current_ratio_200_100 (bs : Table)
    (ha : firstKeyMatch bs asset_keys = some 200)
    (hl : firstKeyMatch bs liability_keys = some 100) :
    extract_current_ratio bs = some 2 := by
  unfold extract_current_ratio
  rw [ha, hl]
  norm_num

/-- Alias resolution to assets 50 / liabilities 25 makes
`extract_current_ratio` return 2. -/
theorem extract_current_ratio_50_25 (bs : Table)
    (ha : firstKeyMatch bs asset_keys = some 50)
    (hl : firstKeyMatch bs liability_keys = some 25) :
    extract_current_ratio bs = some 2 := by
  unfold extract_current_ratio
  rw [ha, hl]
  norm_num

/-- C4: the `current_ratio` field.  An annual sheet resolving to assets 200
and liabilities 100 gives ratio 2; whenever the annual attempt yields `None`
— extraction failure or fetch error alike — the identical extraction is
retried against the quarterly sheet, and an annual sheet missing both rows
paired with a quarterly sheet resolving to 50/25 gives ratio 2. -/
theorem C4_current_ratio_fallback (t : Provider) (now s : String) (rec : Dict)
    (h : fetch_financials t now s = .ok rec) :
    (∀ A : Table, t.get_balance_sheet = .ok A →
      firstKeyMatch A asset_keys = some 200 →
      firstKeyMatch A liability_keys = some 100 →
      dictGet rec "current_ratio" = some (some (.q 2)))
    ∧ (∀ A : Table, t.get_balance_sheet = .ok A →
        extract_current_ratio A = none →
        dictGet rec "current_ratio"
          = some (match t.get_quarterly_balance_sheet with
                  | .ok Q => oq (extract_current_ratio Q)
                  | .error _ => none))
    ∧ (t.get_balance_sheet = .error () →
        dictGet rec "current_ratio"
          = some (match t.get_quarterly_balance_sheet with
                  | .ok Q => oq (extract_current_ratio Q)
                  | .error _ => none))
    ∧ (∀ A Q : Table, t.get_balance_sheet = .ok A →
        t.get_quarterly_balance_sheet = .ok Q →
        firstKeyMatch A asset_keys = none →
        firstKeyMatch A liability_keys = none →
        firstKeyMatch Q asset_keys = some 50 →
        firstKeyMatch Q liability_keys = some 25 →
        dictGet rec "current_ratio" = some (some (.q 2))) := by
  obtain ⟨fi, hfi⟩ := fetch_ok_fastInfo t now s rec h
  rw [fetch_financials_ok t now s fi hfi] at h
  injection h with h
  subst h
  refine ⟨?_, ?_, ?_, ?_⟩
  · intro A hA ha hl
    simp [ratioVal, hA, extract_current_ratio_200_100 A ha hl]
  · intro A hA he
    simp [ratioVal, hA, he]
  · intro hA
    simp [ratioVal, hA]
  · intro A Q hA hQ hano halno hqa hql
    have heA : extract_current_ratio A = none := by
      unfold extract_current_ratio
      rw [hano, halno]
    simp [ratioVal, hA, hQ, heA, oq, extract_current_ratio_50_25 Q hqa hql]

/-- A balance sheet with no recognised rows at all. -/
def tableEmpty : Table := ⟨[]⟩

/-- A provider whose annual balance sheet is empty but whose quarterly sheet
resolves to 50/25. -/
def provQ : Provider :=
  ⟨.ok fiA, .ok infoA, .ok tableRev, .ok tableEmpty, .ok tableQBS, .ok histA⟩

/-- The record `fetch_financials` builds against `provQ` (quarterly fallback
engaged, ratio 50/25). -/
def recQ : Dict :=
  [("ticker", some (.s ("aapl".toUpper))),
   ("timestamp", some (.s "2024-01-01T00:00:00")),
   ("last_price", some (.q 5)), ("market_cap", some (.q 10)),
   ("year_high", some (.q 20)), ("year_low", some (.q 1)),
   ("volume", some (.q 1000)), ("sector", some (.s "Technology")),
   ("industry", some (.s "Semiconductors")), ("eps", some (.q 2)),
   ("pe_ratio", some (.q 15)), ("roe", some (.q (1/10))),
   ("debt_to_equity", some (.q (1/2))), ("profit_margin", some (.q (1/5))),
   ("total_revenue", some (.q 1000)),
   ("current_ratio", some (.q (50/25))),
   ("volatility", some (volatilityVal (histA.map (fun r => r.1)))),
   ("liquidity", some (.q (listMean (histA.map (fun r => r.1 * r.2)))))]

/-- C4 witness: against `provA` the annual sheet resolves 200/100 and the
field is 2; against `provQ` the empty annual sheet engages the quarterly
fallback and 50/25 also gives 2. -/
theorem C4_current_ratio_fallback_witness :
    (fetch_financials provA "2024-01-01T00:00:00" "aapl" = .ok recA
     ∧ firstKeyMatch tableBS asset_keys = some 200
     ∧ firstKeyMatch tableBS liability_keys = some 100
     ∧ dictGet recA "current_ratio" = some (some (.q 2)))
    ∧ (fetch_financials provQ "2024-01-01T00:00:00" "aapl" = .ok recQ
       ∧ firstKeyMatch tableEmpty asset_keys = none
       ∧ firstKeyMatch tableQBS asset_keys = some 50
       ∧ firstKeyMatch tableQBS liability_keys = some 25
       ∧ dictGet recQ "current_ratio" = some (some (.q 2))) :=
  have hfetchA : fetch_financials provA "2024-01-01T00:00:00" "aapl"
      = .ok recA := by
    rw [fetch_financials_ok provA "2024-01-01T00:00:00" "aapl" fiA rfl]
    rfl
  have hfetchQ : fetch_financials provQ "2024-01-01T00:00:00" "aapl"
      = .ok recQ := by
    rw [fetch_financials_ok provQ "2024-01-01T00:00:00" "aapl" fiA rfl]
    rfl
  ⟨⟨hfetchA, by decide, by decide,
    (C4_current_ratio_fallback provA "2024-01-01T00:00:00" "aapl" recA
        hfetchA).1 tableBS rfl (by decide) (by decide)⟩,
   ⟨hfetchQ, by decide, by decide, by decide,
    (C4_current_ratio_fallback provQ "2024-01-01T00:00:00" "aapl" recQ
        hfetchQ).2.2.2 tableEmpty tableQBS rfl rfl (by decide) (by decide)
      (by decide) (by decide)⟩⟩

/-- A matched current-liabilities value of 0 fails the truthiness guard, so
`extract_current_ratio` returns `None` without dividing. -/
theorem extract_current_ratio_zero_liab (bs : Table)
    (hl : firstKeyMatch bs liability_keys = some 0) :
    extract_current_ratio bs = none := by
  unfold extract_current_ratio
  rw [hl]
  rcases firstKeyMatch bs asset_keys with _ | a <;> simp

/-- C6: with matched current-liabilities 0 in both the annual and the
quarterly sheet, `current_ratio` is `None`; and in general a computed ratio
only ever arises from a nonzero liabilities operand (and a nonzero assets
operand), so `assets / liabilities` is never evaluated at liabilities 0. -/
theorem C6_zero_liabilities_guard (t : Provider) (now s : String) (rec : Dict)
    (h : fetch_financials t now s = .ok rec) :
    (∀ A Q : Table, t.get_balance_sheet = .ok A →
      t.get_quarterly_balance_sheet = .ok Q →
      firstKeyMatch A liability_keys = some 0 →
      firstKeyMatch Q liability_keys = some 0 →
      dictGet rec "current_ratio" = some none)
    ∧ (∀ bs : Table, ∀ r : ℚ, extract_current_ratio bs = some r →
        ∃ a l : ℚ, firstKeyMatch bs asset_keys = some a
          ∧ firstKeyMatch bs liability_keys = some l
          ∧ a ≠ 0 ∧ l ≠ 0 ∧ r = a / l) := by
  obtain ⟨fi, hfi⟩ := fetch_ok_fastInfo t now s rec h
  rw [fetch_financials_ok t now s fi hfi] at h
  injection h with h
  subst h
  constructor
  · intro A Q hA hQ hlA hlQ
    simp [ratioVal, hA, hQ, extract_current_ratio_zero_liab A hlA,
      extract_current_ratio_zero_liab Q hlQ, oq]
  · intro bs r hr
    unfold extract_current_ratio at hr
    rcases ha : firstKeyMatch bs asset_keys with _ | a <;>
      rcases hl : firstKeyMatch bs liability_keys with _ | l <;>
        rw [ha, hl] at hr <;> simp at hr
    exact ⟨a, l, rfl, rfl, hr.1.1, hr.1.2, hr.2.symm⟩

/-- An annual balance sheet whose matched current-liabilities value is 0. -/
def tableBS0 : Table := ⟨[("Current Assets", [200]), ("Current Liabilities", [0])]⟩

/-- A quarterly balance sheet whose matched current-liabilities value is 0. -/
def tableQBS0 : Table := ⟨[("Current Assets", [50]), ("Current Liabilities", [0])]⟩

/-- A provider with zero liabilities in both balance sheets. -/
def provZ : Provider :=
  ⟨.ok fiA, .ok infoA, .ok tableRev, .ok tableBS0, .ok tableQBS0, .ok histA⟩

/-- The record `fetch_financials` builds against `provZ` (`current_ratio`
degraded to `None` by the zero-liabilities guard). -/
def recZ : Dict :=
  [("ticker", some (.s ("aapl".toUpper))),
   ("timestamp", some (.s "2024-01-01T00:00:00")),
   ("last_price", some (.q 5)), ("market_cap", some (.q 10)),
   ("year_high", some (.q 20)), ("year_low", some (.q 1)),
   ("volume", some (.q 1000)), ("sector", some (.s "Technology")),
   ("industry", some (.s "Semiconductors")), ("eps", some (.q 2)),
   ("pe_ratio", some (.q 15)), ("roe", some (.q (1/10))),
   ("debt_to_equity", some (.q (1/2))), ("profit_margin", some (.q (1/5))),
   ("total_revenue", some (.q 1000)),
   ("current_ratio", none),
   ("volatility", some (volatilityVal (histA.map (fun r => r.1)))),
   ("liquidity", some (.q (listMean (histA.map (fun r => r.1 * r.2)))))]

/-- C6 witness: zero liabilities in both sheets of `provZ` leave
`current_ratio` equal to `None`. -/
theorem C6_zero_liabilities_guard_witness :
    fetch_financials provZ "2024-01-01T00:00:00" "aapl" = .ok recZ
    ∧ firstKeyMatch tableBS0 liability_keys = some 0
    ∧ firstKeyMatch tableQBS0 liability_keys = some 0
    ∧ dictGet recZ "current_ratio" = some none :=
  have hfetch : fetch_financials provZ "2024-01-01T00:00:00" "aapl"
      = .ok recZ := by
    rw [fetch_financials_ok provZ "2024-01-01T00:00:00" "aapl" fiA rfl]
    rfl
  ⟨hfetch, by decide, by decide,
   (C6_zero_liabilities_guard provZ "2024-01-01T00:00:00" "aapl" recZ
       hfetch).1 tableBS0 tableQBS0 rfl rfl (by decide) (by decide)⟩

/-- A provider whose quick-quote lookup raises while every guarded endpoint
succeeds. -/
def provNoFast : Provider :=
  ⟨.error (), .ok infoA, .ok tableRev, .ok tableBS, .ok tableQBS, .ok histA⟩

/-- C1 counterexample: with every guarded facet healthy but `fast_info`
raising, `fetch_financials` raises instead of returning a record — the
quick-quote block (api.py lines 30-35) sits outside every `try`, so its
failure aborts the whole assembly, contradicting the claim that no facet's
failure does. -/
theorem C1_quick_quote_aborts_counterexample :
    fetch_financials provNoFast "2024-01-01T00:00:00" "aapl" = .error () := rfl

/-- C1 (amended): `fetch_financials` never raises for failures of the four
guarded facets — whenever the quick-quote lookup succeeds, it returns a
record no matter which of the other facets raise, and each raising facet
degrades only its own fields to `None`.  A quick-quote failure, however, is
not isolated and aborts the call. -/
theorem C1_guarded_facets_isolated (t : Provider) (now s : String)
    (fi : FastInfo) (hfi : t.fast_info = .ok fi) :
    ∃ rec : Dict, fetch_financials t now s = .ok rec
      ∧ (t.get_info = .error () →
          dictGet rec "sector" = some none
          ∧ dictGet rec "industry" = some none
          ∧ dictGet rec "eps" = some none
          ∧ dictGet rec "pe_ratio" = some none
          ∧ dictGet rec "roe" = some none
          ∧ dictGet rec "debt_to_equity" = some none
          ∧ dictGet rec "profit_margin" = some none)
      ∧ (t.get_financials = .error () →
          dictGet rec "total_revenue" = some none)
      ∧ (t.get_balance_sheet = .error () →
          t.get_quarterly_balance_sheet = .error () →
          dictGet rec "current_ratio" = some none)
      ∧ (t.history = .error () →
          dictGet rec "volatility" = some none
          ∧ dictGet rec "liquidity" = some none) := by
  refine ⟨_, fetch_financials_ok t now s fi hfi, ?_, ?_, ?_, ?_⟩
  · intro hi
    rw [hi]
    simp [infoView, os, oq]
  · intro hf
    simp [revenueVal, hf]
  · intro hb hq
    simp [ratioVal, hb, hq]
  · intro hh
    simp [volVal, liqVal, hh]

/-- C1 witness: on `provErr` (quick quote succeeds, all four guarded facets
raise), a record is still returned and every guarded facet's fields are
`None`. -/
theorem C1_guarded_facets_isolated_witness :
    provErr.fast_info = .ok fiA
    ∧ fetch_financials provErr "2024-01-01T00:00:00" "aapl" = .ok recErr
    ∧ dictGet recErr "sector" = some none
    ∧ dictGet recErr "total_revenue" = some none
    ∧ dictGet recErr "current_ratio" = some none
    ∧ dictGet recErr "volatility" = some none
    ∧ dictGet recErr "liquidity" = some none := by
  have hfetch : fetch_financials provErr "2024-01-01T00:00:00" "aapl"
      = .ok recErr := by
    rw [fetch_financials_ok provErr "2024-01-01T00:00:00" "aapl" fiA rfl]
    rfl
  obtain ⟨rec, hrec, hinfo, hfin, hbs, hh⟩ :=
    C1_guarded_facets_isolated provErr "2024-01-01T00:00:00" "aapl" fiA rfl
  rw [hfetch] at hrec
  injection hrec with hrec
  subst hrec
  exact ⟨rfl, hfetch, (hinfo rfl).1, hfin rfl, hbs rfl rfl, (hh rfl).1,
    (hh rfl).2⟩

/-- A close series of fewer than 2 points admits no sample standard
deviation (`ddof=1`), so the volatility value is `NaN`. -/
theorem volatilityVal_short (closes : List ℚ) (h : closes.length < 2) :
    volatilityVal closes = .nan := by
  have h1 : (validRets closes).length ≤ (rets closes).length :=
    List.length_filterMap_le _ _
  have h2 : (rets closes).length ≤ closes.length := by
    rw [rets, List.length_map, List.length_zip]
    exact min_le_left _ _
  unfold volatilityVal
  rw [if_neg]
  exact fun hc => absurd hc.2 (by omega)

/-- A 1-point price/volume history. -/
def histShort : Hist := [(100, 10)]

/-- A provider returning a 1-point history with every endpoint healthy. -/
def provShort : Provider :=
  ⟨.ok fiA, .ok infoA, .ok tableRev, .ok tableBS, .ok tableQBS, .ok histShort⟩

/-- The record `fetch_financials` builds against `provShort`. -/
def recShort : Dict :=
  [("ticker", some (.s ("aapl".toUpper))),
   ("timestamp", some (.s "2024-01-01T00:00:00")),
   ("last_price", some (.q 5)), ("market_cap", some (.q 10)),
   ("year_high", some (.q 20)), ("year_low", some (.q 1)),
   ("volume", some (.q 1000)), ("sector", some (.s "Technology")),
   ("industry", some (.s "Semiconductors")), ("eps", some (.q 2)),
   ("pe_ratio", some (.q 15)), ("roe", some (.q (1/10))),
   ("debt_to_equity", some (.q (1/2))), ("profit_margin", some (.q (1/5))),
   ("total_revenue", some (.q 1000)),
   ("current_ratio", some (.q (200/100))),
   ("volatility", some (volatilityVal (histShort.map (fun r => r.1)))),
   ("liquidity", some (.q (listMean (histShort.map (fun r => r.1 * r.2)))))]

/-- C7 counterexample: a successfully fetched 1-point series (fewer than 2
points) does NOT make the two fields `None`: no exception occurs, the
volatility field becomes the float `NaN` and the liquidity field a number —
contradicting the claim that a too-short series yields `null` for both. -/
theorem C7_short_series_counterexample :
    provShort.history = .ok histShort
    ∧ histShort.length < 2
    ∧ fetch_financials provShort "2024-01-01T00:00:00" "aapl" = .ok recShort
    ∧ dictGet recShort "volatility" = some (some Val.nan)
    ∧ dictGet recShort "volatility" ≠ some none
    ∧ dictGet recShort "liquidity" ≠ some none :=
  ⟨rfl, by decide,
   by
     rw [fetch_financials_ok provShort "2024-01-01T00:00:00" "aapl" fiA rfl]
     rfl,
   by decide, by decide, by decide⟩

/-- C7 (amended): the volatility and liquidity fields are `None` exactly
when the history fetch raises, and they are `None` only together; a
successfully fetched series of fewer than 2 points instead leaves `NaN`
(not `None`) in the volatility field. -/
theorem C7_nullness_iff_history_raises (t : Provider) (now s : String)
    (rec : Dict) (h : fetch_financials t now s = .ok rec) :
    (dictGet rec "volatility" = some none ↔ t.history = .error ())
    ∧ (dictGet rec "volatility" = some none
        ↔ dictGet rec "liquidity" = some none)
    ∧ (∀ hs : Hist, t.history = .ok hs → hs.length < 2 →
        dictGet rec "volatility" = some (some Val.nan)) := by
  obtain ⟨fi, hfi⟩ := fetch_ok_fastInfo t now s rec h
  rw [fetch_financials_ok t now s fi hfi] at h
  injection h with h
  subst h
  rcases hh : t.history with e | hist
  · cases e
    refine ⟨?_, ?_, ?_⟩
    · simp [volVal, hh]
    · simp [volVal, liqVal, hh]
    · intro hs hok
      exact absurd hok (by simp)
  · refine ⟨?_, ?_, ?_⟩
    · simp [volVal, hh]
    · simp [volVal, liqVal, hh]
    · intro hs hok hlen
      injection hok with hok
      subst hok
      have hnan := volatilityVal_short (hist.map (fun r => r.1))
        (by rw [List.length_map]; exact hlen)
      simp [volVal, hnan]

/-- C7 witness: against `provErr` (history raises) both fields are `None`
together; against `provShort` the 1-point series leaves `NaN`, as the
amended theorem states. -/
theorem C7_nullness_iff_history_raises_witness :
    fetch_financials provErr "2024-01-01T00:00:00" "aapl" = .ok recErr
    ∧ (dictGet recErr "volatility" = some none
        ↔ provErr.history = .error ())
    ∧ (dictGet recErr "volatility" = some none
        ↔ dictGet recErr "liquidity" = some none)
    ∧ fetch_financials provShort "2024-01-01T00:00:00" "aapl" = .ok recShort
    ∧ dictGet recShort "volatility" = some (some Val.nan) := by
  have hfetchE : fetch_financials provErr "2024-01-01T00:00:00" "aapl"
      = .ok recErr := by
    rw [fetch_financials_ok provErr "2024-01-01T00:00:00" "aapl" fiA rfl]
    rfl
  have hfetchS : fetch_financials provShort "2024-01-01T00:00:00" "aapl"
      = .ok recShort := by
    rw [fetch_financials_ok provShort "2024-01-01T00:00:00" "aapl" fiA rfl]
    rfl
  have hcE := C7_nullness_iff_history_raises provErr "2024-01-01T00:00:00"
    "aapl" recErr hfetchE
  have hcS := C7_nullness_iff_history_raises provShort "2024-01-01T00:00:00"
    "aapl" recShort hfetchS
  exact ⟨hfetchE, hcE.1, hcE.2.1, hfetchS,
    hcS.2.2 histShort rfl (by decide)⟩

/-- With every close nonzero, each `pct_change` step is a finite value. -/
theorem rets_of_ne_zero (closes : List ℚ) (h : ∀ c ∈ closes, c ≠ 0) :
    rets closes
      = (closes.zip closes.tail).map (fun p => Ret.val ((p.2 - p.1) / p.1)) := by
  unfold rets
  apply List.map_congr_left
  intro p hp
  rcases p with ⟨a, b⟩
  have ha : a ∈ closes := (List.of_mem_zip hp).1
  simp [retOf, h a ha]

/-- With every close nonzero, no `pct_change` step is an infinity. -/
theorem hasInfRet_false_of_ne_zero (closes : List ℚ)
    (h : ∀ c ∈ closes, c ≠ 0) : hasInfRet closes = false := by
  unfold hasInfRet
  rw [rets_of_ne_zero closes h, List.any_eq_false]
  intro r hr
  obtain ⟨p, _, rfl⟩ := List.mem_map.1 hr
  simp

/-- With every close nonzero, the finite returns are exactly the pairwise
percentage changes, one per adjacent pair. -/
theorem validRets_of_ne_zero (closes : List ℚ) (h : ∀ c ∈ closes, c ≠ 0) :
    validRets closes
      = (closes.zip closes.tail).map (fun p => (p.2 - p.1) / p.1) := by
  unfold validRets
  rw [rets_of_ne_zero closes h, List.filterMap_map]
  exact congrFun (List.filterMap_eq_map _) _

/-- The sample variance is a quotient of a sum of squares by a natural
number, hence non-negative. -/
theorem sampleVar_nonneg (xs : List ℚ) : 0 ≤ sampleVar xs := by
  unfold sampleVar
  apply div_nonneg
  · apply List.sum_nonneg
    intro x hx
    obtain ⟨y, _, rfl⟩ := List.mem_map.1 hx
    positivity
  · positivity

/-- A 2-day price/volume history (one valid return — too few for `ddof=1`). -/
def hist2 : Hist := [(100, 10), (110, 12)]

/-- A provider returning the 2-day history with every endpoint healthy. -/
def prov2 : Provider :=
  ⟨.ok fiA, .ok infoA, .ok tableRev, .ok tableBS, .ok tableQBS, .ok hist2⟩

/-- The record `fetch_financials` builds against `prov2`. -/
def rec2 : Dict :=
  [("ticker", some (.s ("aapl".toUpper))),
   ("timestamp", some (.s "2024-01-01T00:00:00")),
   ("last_price", some (.q 5)), ("market_cap", some (.q 10)),
   ("year_high", some (.q 20)), ("year_low", some (.q 1)),
   ("volume", some (.q 1000)), ("sector", some (.s "Technology")),
   ("industry", some (.s "Semiconductors")), ("eps", some (.q 2)),
   ("pe_ratio", some (.q 15)), ("roe", some (.q (1/10))),
   ("debt_to_equity", some (.q (1/2))), ("profit_margin", some (.q (1/5))),
   ("total_revenue", some (.q 1000)),
   ("current_ratio", some (.q (200/100))),
   ("volatility", some (volatilityVal (hist2.map (fun r => r.1)))),
   ("liquidity", some (.q (listMean (hist2.map (fun r => r.1 * r.2)))))]

/-- C8 counterexample: a series of exactly 2 trading days has one valid
return, whose sample standard deviation (`ddof=1`) is `NaN` — so the
volatility field is `NaN`, not a non-negative finite number, contradicting
the claim for series "of at least 2 trading days". -/
theorem C8_two_day_series_counterexample :
    prov2.history = .ok hist2
    ∧ 2 ≤ hist2.length
    ∧ fetch_financials prov2 "2024-01-01T00:00:00" "aapl" = .ok rec2
    ∧ dictGet rec2 "volatility" = some (some Val.nan)
    ∧ Val.isFiniteNum Val.nan = false :=
  ⟨rfl, by decide,
   by
     rw [fetch_financials_ok prov2 "2024-01-01T00:00:00" "aapl" fiA rfl]
     rfl,
   by decide, rfl⟩

/-- C8 (amended): for a fetched series of at least 3 trading days with
positive closes, the volatility field holds a finite non-negative value
(`sqrt v * sqrt 252` for a non-negative sample variance `v`) and the
liquidity field equals the arithmetic mean of close×volume. -/
theorem C8_volatility_nonneg_liquidity_mean (t : Provider) (now s : String)
    (rec : Dict) (h : fetch_financials t now s = .ok rec) :
    ∀ hs : Hist, t.history = .ok hs → 3 ≤ hs.length →
    (∀ p ∈ hs, 0 < p.1) →
    ((∃ v : ℚ, dictGet rec "volatility" = some (some (.vol v)) ∧ 0 ≤ v
       ∧ (Val.vol v).isFiniteNum = true ∧ 0 ≤ (Val.vol v).toReal)
     ∧ dictGet rec "liquidity"
        = some (some (.q (listMean (hs.map (fun r => r.1 * r.2)))))) := by
  obtain ⟨fi, hfi⟩ := fetch_ok_fastInfo t now s rec h
  rw [fetch_financials_ok t now s fi hfi] at h
  injection h with h
  subst h
  intro hs hok h3 hpos
  have hne : ∀ c ∈ hs.map (fun r => r.1), c ≠ 0 := by
    intro c hc
    obtain ⟨p, hp, rfl⟩ := List.mem_map.1 hc
    exact ne_of_gt (hpos p hp)
  have hvv : volatilityVal (hs.map (fun r => r.1))
      = .vol (sampleVar (validRets (hs.map (fun r => r.1)))) := by
    unfold volatilityVal
    rw [if_pos]
    refine ⟨hasInfRet_false_of_ne_zero _ hne, ?_⟩
    rw [validRets_of_ne_zero _ hne, List.length_map, List.length_zip,
      List.length_tail, List.length_map]
    omega
  constructor
  · refine ⟨sampleVar (validRets (hs.map (fun r => r.1))), ?_,
      sampleVar_nonneg _, rfl, ?_⟩
    · simp [volVal, hok, hvv]
    · show (0:ℝ) ≤ Real.sqrt _ * Real.sqrt 252
      exact mul_nonneg (Real.sqrt_nonneg _) (Real.sqrt_nonneg _)
  · have hnil : hs.isEmpty = false := by
      rcases hs with _ | ⟨p, rest⟩
      · simp at h3
      · rfl
    simp [liqVal, hok, liquidityVal, hnil]

/-- C8 witness: the 4-day positive-close series of `provA` yields a
volatility value with non-negative sample variance and a liquidity equal to
the mean of close×volume. -/
theorem C8_volatility_nonneg_liquidity_mean_witness :
    fetch_financials provA "2024-01-01T00:00:00" "aapl" = .ok recA
    ∧ 3 ≤ histA.length
    ∧ dictGet recA "liquidity"
        = some (some (.q (listMean (histA.map (fun r => r.1 * r.2)))))
    ∧ dictGet recA "volatility"
        = some (some (.vol (sampleVar (validRets (histA.map (fun r => r.1))))))
    ∧ 0 ≤ sampleVar (validRets (histA.map (fun r => r.1))) := by
  have hfetch : fetch_financials provA "2024-01-01T00:00:00" "aapl"
      = .ok recA := by
    rw [fetch_financials_ok provA "2024-01-01T00:00:00" "aapl" fiA rfl]
    rfl
  have hc := C8_volatility_nonneg_liquidity_mean provA "2024-01-01T00:00:00"
    "aapl" recA hfetch histA rfl (by decide) (by decide)
  obtain ⟨⟨v, hv, hvnn, _, _⟩, hliq⟩ := hc
  have hvol : dictGet recA "volatility"
      = some (some (.vol (sampleVar (validRets (histA.map (fun r => r.1)))))) :=
    rfl
  rw [hvol] at hv
  injection hv with hv
  injection hv with hv
  injection hv with hv
  exact ⟨hfetch, by decide, hliq, hvol, hv ▸ hvnn⟩
